import Mathlib

/-!
Verification development for the vector-embedded email question-answering app.

The embedding models, in Lean, the code of:
- src/app/api/ask-question/route.ts  (the ask-question POST handler, its
  extractive-QA / generation decision sequence, and the generation fallback
  chain tryGenerateWithFallbacks), and
- src/unnamed/part_000  (the store-email route, whose getHfEmbedding owns the
  multi-endpoint, multi-attempt retry loop and the embedding response-shape
  normalization shared with route.ts).

Remote HTTP calls are modelled by passing their scripted outcomes as explicit
function arguments; each embedded function additionally returns a trace of the
observable effects (fetches, backoff sleeps, engine invocations) so that
ordering and invocation-count properties can be stated.
-/

/-- A JSON value, as produced by JSON.parse on an upstream response body.
Numbers are modelled as integers: no claim depends on numeric arithmetic,
only on the structural shape of values. -/
inductive Json where
  | null : Json
  | bool (b : Bool) : Json
  | num (n : Int) : Json
  | str (s : String) : Json
  | arr (elems : List Json) : Json
  | obj (fields : List (String × Json)) : Json

/-- JavaScript property access `j.k`: a field lookup on an object, `undefined`
(modelled as `none`) on everything else. -/
def Json.look : Json → String → Option Json
  | .obj fields, k => fields.lookup k
  | _, _ => none

/-- JavaScript index access `j[i]` for the array case; `undefined` otherwise. -/
def Json.idx : Json → Nat → Option Json
  | .arr l, i => l.get? i
  | _, _ => none

/-- `Array.isArray`. -/
def Json.isArr : Json → Bool
  | .arr _ => true
  | _ => false

/-- JavaScript truthiness of a JSON value. -/
def Json.truthy : Json → Bool
  | .null => false
  | .bool b => b
  | .num n => n != 0
  | .str s => s != ""
  | .arr _ => true
  | .obj _ => true

/-- `typeof x === "number"`. -/
def isNumJ : Json → Bool
  | .num _ => true
  | _ => false

/-- Truthiness of a possibly-`undefined` value. -/
def oTruthy : Option Json → Bool
  | none => false
  | some j => j.truthy

/-- `Array.isArray` on a possibly-`undefined` value. -/
def oIsArr : Option Json → Bool
  | none => false
  | some j => j.isArr

/-- `typeof x === "number"` on a possibly-`undefined` value. -/
def oIsNum : Option Json → Bool
  | none => false
  | some j => isNumJ j

/-- The `data[0].embedding` check and extraction of getHfEmbedding
(src/unnamed/part_000 line 144, src/app/api/ask-question/route.ts line 42):
`if (json.data && Array.isArray(json.data) && json.data[0]?.embedding) return json.data[0].embedding`. -/
def dataCheck (json : Json) : Option Json :=
  if oTruthy (json.look "data") && oIsArr (json.look "data") &&
      oTruthy (((json.look "data").bind (fun x => x.idx 0)).bind (fun x => x.look "embedding")) then
    ((json.look "data").bind (fun x => x.idx 0)).bind (fun x => x.look "embedding")
  else
    none

/-- The response-shape normalization of getHfEmbedding
(src/unnamed/part_000 lines 134-147; src/app/api/ask-question/route.ts lines
33-44 are the same checks, minus a redundant `json.length` guard whose absence
does not change behaviour because `typeof undefined` is not `"number"`).
Returns the value the code would `return`, or `none` where the code throws the
"Unexpected HF embedding response shape" error. -/
def normalizeEmbedding (json : Json) : Option Json :=
  if json.isArr && oIsNum (json.idx 0) then
    some json
  else if json.isArr && oIsArr (json.idx 0) && oIsNum ((json.idx 0).bind (fun x => x.idx 0)) then
    json.idx 0
  else if oTruthy (json.look "embedding") && oIsArr (json.look "embedding") then
    json.look "embedding"
  else if oTruthy (json.look "embeddings") then
    if oIsArr ((json.look "embeddings").bind (fun x => x.idx 0)) &&
        oIsNum (((json.look "embeddings").bind (fun x => x.idx 0)).bind (fun x => x.idx 0)) then
      (json.look "embeddings").bind (fun x => x.idx 0)
    else if oIsNum ((json.look "embeddings").bind (fun x => x.idx 0)) then
      json.look "embeddings"
    else
      dataCheck json
  else
    dataCheck json

/-- A value is accepted by one of the code's five structural checks. Each
disjunct restates one of the conditions actually tested by the code (the
`embeddings` sub-checks already force the field to be a non-empty array, so
the surrounding truthiness gate is not repeated). -/
def looseMatch (json : Json) : Bool :=
  (json.isArr && oIsNum (json.idx 0)) ||
  (json.isArr && oIsArr (json.idx 0) && oIsNum ((json.idx 0).bind (fun x => x.idx 0))) ||
  (oTruthy (json.look "embedding") && oIsArr (json.look "embedding")) ||
  (oIsArr ((json.look "embeddings").bind (fun x => x.idx 0)) &&
    oIsNum (((json.look "embeddings").bind (fun x => x.idx 0)).bind (fun x => x.idx 0))) ||
  (oIsNum ((json.look "embeddings").bind (fun x => x.idx 0))) ||
  (oTruthy (json.look "data") && oIsArr (json.look "data") &&
    oTruthy (((json.look "data").bind (fun x => x.idx 0)).bind (fun x => x.look "embedding")))

/-- A non-empty flat array of numbers, the payload every one of the spec's
five shapes is meant to carry. -/
def numVec? (j : Json) : Option Json :=
  match j with
  | .arr v => if !v.isEmpty && v.all isNumJ then some (.arr v) else none
  | _ => none

/-- Modelled from the spec: shape (a), "a bare array of numbers". -/
def shapeA (j : Json) : Option Json :=
  match j with
  | .arr v => numVec? (.arr v)
  | _ => none

/-- Modelled from the spec: shape (b), "a nested single-row array of numbers". -/
def shapeB (j : Json) : Option Json :=
  match j with
  | .arr [row] => numVec? row
  | _ => none

/-- Modelled from the spec: shape (c), "an `embedding` field" holding the
flat numeric vector. -/
def shapeC (j : Json) : Option Json :=
  (j.look "embedding").bind numVec?

/-- Modelled from the spec: shape (d), "an `embeddings` field (itself either a
flat vector or nested)", the nested form being a single row. -/
def shapeD (j : Json) : Option Json :=
  match j.look "embeddings" with
  | some e =>
    match numVec? e with
    | some v => some v
    | none =>
      match e with
      | .arr [row] => numVec? row
      | _ => none
  | none => none

/-- Modelled from the spec: shape (e), "a `data[0].embedding` field" holding
the flat numeric vector. -/
def shapeE (j : Json) : Option Json :=
  ((j.look "data").bind (fun d => d.idx 0)).bind (fun d0 => (d0.look "embedding").bind numVec?)

/-- An HTTP response as seen by the embedding fetch loop: the status code and
the parsed JSON body (`none` models a body on which JSON.parse throws). -/
structure HResp where
  status : Nat
  body : Option Json

/-- `resp.ok`: status in the 200-299 range. -/
def respOk (r : HResp) : Bool := 200 ≤ r.status && r.status < 300

/-- An observable effect of the embedding fetch loop: an HTTP request to
endpoint `e` (0 = primary, 1 = fallback) as attempt number `a`, or a blocking
delay of `ms` milliseconds. -/
inductive FetchEvent where
  | fetch (e a : Nat) : FetchEvent
  | sleep (ms : Nat) : FetchEvent
deriving DecidableEq

/-- The per-endpoint attempt loop of getHfEmbedding (src/unnamed/part_000
lines 98-158). `fetch e a` scripts the response of endpoint `e` on attempt
`a`; `attempt` is the 1-based attempt counter and `fuel` the number of
attempts still allowed (the loop runs attempts `1..maxAttempts`, so
`fuel = maxAttempts - attempt + 1`, and `fuel = 1` exactly when
`attempt === maxAttempts`, the condition tested by the catch block).
Returns the normalized vector (`none` when this endpoint is exhausted)
together with the trace of fetches and sleeps. Any error thrown inside the
try block — a non-retryable HTTP status (line 123), a JSON.parse failure
(line 131), or the unexpected-shape error (line 147) — lands in the catch
block (lines 148-157), which breaks to the next endpoint on the last attempt
and otherwise sleeps `250 * attempt` and retries the same endpoint. A 429 or
5xx status instead sleeps `300 * attempt` inside the try block and continues
the loop (lines 116-121). -/
def attemptLoop (fetch : Nat → Nat → HResp) (e attempt : Nat) : Nat → Option Json × List FetchEvent
  | 0 => (none, [])
  | fuel + 1 =>
    let resp := fetch e attempt
    let ev := FetchEvent.fetch e attempt
    -- the caught-error continuation of the catch block
    let caught : Option Json × List FetchEvent :=
      if fuel = 0 then
        (none, [ev])
      else
        let r := attemptLoop fetch e (attempt + 1) fuel
        (r.1, ev :: FetchEvent.sleep (250 * attempt) :: r.2)
    if respOk resp then
      match resp.body with
      | none => caught
      | some j =>
        match normalizeEmbedding j with
        | some v => (some v, [ev])
        | none => caught
    else if resp.status == 429 || 500 ≤ resp.status then
      let r := attemptLoop fetch e (attempt + 1) fuel
      (r.1, ev :: FetchEvent.sleep (300 * attempt) :: r.2)
    else
      caught

/-- The endpoint loop of getHfEmbedding (src/unnamed/part_000 lines 95-159):
each endpoint in turn gets up to `maxAttempts = 3` attempts. -/
def endpointsLoop (fetch : Nat → Nat → HResp) : List Nat → Option Json × List FetchEvent
  | [] => (none, [])
  | e :: rest =>
    match attemptLoop fetch e 1 3 with
    | (some v, t) => (some v, t)
    | (none, t) =>
      let r := endpointsLoop fetch rest
      (r.1, t ++ r.2)

/-- getHfEmbedding of src/unnamed/part_000 (lines 77-162): try the primary
endpoint (index 0), then the fallback endpoint (index 1). A `none` result is
the terminal "Failed to fetch embedding from Hugging Face with any endpoint"
error. -/
def getHfEmbedding (fetch : Nat → Nat → HResp) : Option Json × List FetchEvent :=
  endpointsLoop fetch [0, 1]

/-- JSON string escaping used by JSON.stringify (the escapes relevant to the
characters our model can produce). -/
def escapeChar (c : Char) : String :=
  if c = '"' then "\\\""
  else if c = '\\' then "\\\\"
  else if c = '\n' then "\\n"
  else if c = '\r' then "\\r"
  else if c = '\t' then "\\t"
  else String.singleton c

/-- A JSON string literal as JSON.stringify prints it. -/
def quoteStr (s : String) : String :=
  "\"" ++ String.join (s.toList.map escapeChar) ++ "\""

mutual

/-- JSON.stringify, used by the lenient fallback of tryGenerateWithFallbacks
(src/app/api/ask-question/route.ts lines 113 and 140). -/
def stringify : Json → String
  | .null => "null"
  | .bool true => "true"
  | .bool false => "false"
  | .num n => toString n
  | .str s => quoteStr s
  | .arr l => "[" ++ stringifyElems l ++ "]"
  | .obj f => "\x7b" ++ stringifyFields f ++ "\x7d"

/-- Comma-separated stringification of array elements. -/
def stringifyElems : List Json → String
  | [] => ""
  | [j] => stringify j
  | j :: rest => stringify j ++ "," ++ stringifyElems rest

/-- Comma-separated stringification of object fields. -/
def stringifyFields : List (String × Json) → String
  | [] => ""
  | [(k, j)] => quoteStr k ++ ":" ++ stringify j
  | (k, j) :: rest => quoteStr k ++ ":" ++ stringify j ++ "," ++ stringifyFields rest

end

/-- Extraction of the generated text from a successful generation response
(src/app/api/ask-question/route.ts lines 108-113, and identically lines
135-140 for the text2text pipeline, whose extra line 139 repeats the first
check and so never fires): an array whose first element has a string
`generated_text`; else a truthy string `generated_text` field; else an array
whose first element has a string `text`; else the stringified JSON truncated
to 4000 characters. -/
def extractGenerated (json : Json) : String :=
  match (match json with | .arr (x :: _) => x.look "generated_text" | _ => none) with
  | some (.str s) => s
  | _ =>
    match (match json.look "generated_text" with
           | some (.str s) => if s = "" then none else some s
           | _ => none) with
    | some s => s
    | none =>
      match (match json with | .arr (x :: _) => x.look "text" | _ => none) with
      | some (.str s) => s
      | _ => (stringify json).take 4000

/-- Outcome of one generation fetch: an HTTP 2xx response whose body parsed
(`ok`), or anything the code absorbs and logs before moving on — a transport
error, a non-2xx status, or an unparseable body (`fail`). -/
inductive GenOutcome where
  | ok (body : Json) : GenOutcome
  | fail : GenOutcome

/-- The two generation pipelines tried for each model: mode A is
`text-generation`, mode B is `text2text-generation`. -/
inductive GenMode where
  | modeA : GenMode
  | modeB : GenMode
deriving DecidableEq

/-- tryGenerateWithFallbacks (src/app/api/ask-question/route.ts lines
90-150). `fetchGen m mode` scripts the outcome of calling model `m` under
the given pipeline mode. Returns the generated string (`none` is the terminal
"All generation models failed or were unavailable" error) together with the
ordered trace of (model, mode) attempts actually issued. -/
def tryGenerateWithFallbacks (fetchGen : String → GenMode → GenOutcome) :
    List String → Option String × List (String × GenMode)
  | [] => (none, [])
  | m :: rest =>
    match fetchGen m .modeA with
    | .ok j => (some (extractGenerated j), [(m, .modeA)])
    | .fail =>
      match fetchGen m .modeB with
      | .ok j => (some (extractGenerated j), [(m, .modeA), (m, .modeB)])
      | .fail =>
        let r := tryGenerateWithFallbacks fetchGen rest
        (r.1, (m, .modeA) :: (m, .modeB) :: r.2)

/-- The full attempt schedule when nothing succeeds: both modes of every
model, in caller-supplied model order, mode A before mode B. -/
def fullSchedule : List String → List (String × GenMode)
  | [] => []
  | m :: rest => (m, .modeA) :: (m, .modeB) :: fullSchedule rest

/-- Whitespace as JavaScript String.prototype.trim sees it. -/
def isWsChar (c : Char) : Bool :=
  c = ' ' || c = '\t' || c = '\n' || c = '\r' || c = '\x0b' || c = '\x0c'

/-- JavaScript String.prototype.trim, modelled on the character list (the
ASCII whitespace characters; JS also strips some unicode spaces, which never
occur in the strings of interest). Defined on the list representation so that
the kernel can evaluate it on literals. -/
def jsTrim (s : String) : String :=
  String.mk (((s.data.dropWhile isWsChar).reverse.dropWhile isWsChar).reverse)

/-- A row returned by the match_filtered_email_sections similarity search.
The handler reads only `section_content` (a missing or null field is `none`);
`score` and `section_order` are carried to state that the handler never
consults them. -/
structure MatchedSection where
  section_content : Option String
  score : Option Int
  section_order : Option Nat
deriving DecidableEq

/-- The truthiness filter `.filter(Boolean)` applied to a section content:
`null`/`undefined` and the empty string are dropped. -/
def keepTruthy : Option String → Option String
  | some s => if s = "" then none else some s
  | none => none

/-- The contents of the returned sections, in search-returned order
(`matchingSections.map(r => r.section_content)`, route.ts line 190). -/
def sectionContents (sections : List MatchedSection) : List (Option String) :=
  sections.map (fun r => r.section_content)

/-- `contextArr` of route.ts line 190: contents in search order with falsy
entries dropped (`.map(r => r.section_content).filter(Boolean)`). -/
def contextArr (sections : List MatchedSection) : List String :=
  (sectionContents sections).filterMap keepTruthy

/-- `context` of route.ts line 191: the kept contents joined by a blank line. -/
def buildContext (sections : List MatchedSection) : String :=
  String.intercalate "\n\n" (contextArr sections)

/-- The result tryExtractiveQA hands back to the handler: an answer string
with an optional score, or `null` (which also stands for every failure that
tryExtractiveQA absorbs internally and reports as `null`). -/
structure QaAnswer where
  answer : String
  score : Option Int
deriving DecidableEq

/-- The JSON payload of a NextResponse produced by the ask-question handler.
A field that the handler does not put into the payload is `none`; `answer`
and `score` distinguish an absent field (`none`) from an explicit JSON null
(`some none`). -/
structure RouteResponse where
  status : Nat
  answer : Option (Option String)
  info : Option String
  contextFound : Option Bool
  source : Option String
  score : Option (Option Int)
  error : Option String
deriving DecidableEq

/-- An invocation of one of the two remote QA engines by the handler. -/
inductive EngCall where
  | qa : EngCall
  | gen : EngCall
deriving DecidableEq

/-- Message of route.ts line 196. -/
def noContextMsg : String := "No relevant email content was found for that query."

/-- Message of route.ts line 245 (copied verbatim, including its mojibake
em dash). -/
def generalAnswerMsg : String := "No matching email content found â€” returned a general answer."

/-- Message of route.ts line 238. -/
def genFailMsg : String := "Failed to generate answer: no available HF generation model."

/-- The instruction prefix of route.ts line 223. -/
def systemPrefix : String :=
  "You are an assistant that will use the provided context to answer the question concisely and accurately. Use only the provided context unless asked otherwise."

/-- The generation prompt of route.ts line 224: the instruction prefix, the
context (or the "(no context available)" placeholder when the context is
empty), and the question. -/
def buildPrompt (context question : String) : String :=
  systemPrefix ++ "\n\nContext:\n" ++ (if context = "" then "(no context available)" else context) ++
    "\n\nQuestion:\n" ++ question ++ "\n\nAnswer:"

/-- The ask-question POST handler (src/app/api/ask-question/route.ts lines
157-253) from the point where the request body has parsed, the question has
been embedded and the similarity search has succeeded; those earlier stages
only fail into the catch-all 500 and are not the subject of any claim.
`sections` is the successful search result; `qaRes` scripts what
tryExtractiveQA returns (line 208); `genRes` scripts what
tryGenerateWithFallbacks produces (line 235), `none` standing for its
terminal all-models-failed error. Returns the response payload and the
ordered list of QA-engine invocations the handler performed. -/
def POST (rawQuestion : String) (generateIfNoContext : Bool)
    (sections : List MatchedSection) (qaRes : Option QaAnswer)
    (genRes : Option String) : RouteResponse × List EngCall :=
  let question := jsTrim rawQuestion
  if question = "" then
    ({ status := 400, answer := none, info := none, contextFound := none,
       source := none, score := none, error := some "Missing question" }, [])
  else
    let context := buildContext sections
    if context = "" ∧ generateIfNoContext = false then
      -- route.ts lines 195-201: no context and the flag is off
      ({ status := 200, answer := some none, info := some noContextMsg,
         contextFound := some false, source := none, score := none, error := none }, [])
    else
      -- route.ts lines 206-220: extractive QA runs only when context is non-empty
      let qaStep : Option RouteResponse × List EngCall :=
        if context = "" then
          (none, [])
        else
          match qaRes with
          | none => (none, [EngCall.qa])
          | some r =>
            if r.answer = "" then
              (none, [EngCall.qa])
            else if jsTrim r.answer = "" then
              (none, [EngCall.qa])
            else
              (some { status := 200, answer := some (some (jsTrim r.answer)), info := none,
                      contextFound := some true, source := some "extractive-qa",
                      score := some r.score, error := none }, [EngCall.qa])
      match qaStep.1 with
      | some resp => (resp, qaStep.2)
      | none =>
        -- route.ts lines 233-248: generation fallback
        match genRes with
        | none =>
          ({ status := 502, answer := none, info := none, contextFound := none,
             source := none, score := none, error := some genFailMsg },
           qaStep.2 ++ [EngCall.gen])
        | some g =>
          let answer := jsTrim g
          if context = "" then
            ({ status := 200, answer := some (some answer), info := some generalAnswerMsg,
               contextFound := some false, source := none, score := none, error := none },
             qaStep.2 ++ [EngCall.gen])
          else
            ({ status := 200, answer := some (some answer), info := none,
               contextFound := some true, source := some "generation", score := none, error := none },
             qaStep.2 ++ [EngCall.gen])

/-- Reordering a list by an index sequence: `selectIdx p l` picks the
elements of `l` at positions `p` (skipping out-of-range indices). A
permutation of `l` is `selectIdx p l` for `p` a permutation of the valid
positions. -/
def selectIdx {α : Type} (p : List Nat) (l : List α) : List α :=
  p.filterMap (fun i => l.get? i)

/-! Helper lemmas about the option-level checks. -/

theorem isSome_of_oIsArr {o : Option Json} (h : oIsArr o = true) : o.isSome = true := by
  cases o <;> simp_all [oIsArr]

theorem isSome_of_oIsNum {o : Option Json} (h : oIsNum o = true) : o.isSome = true := by
  cases o <;> simp_all [oIsNum]

theorem isSome_of_oTruthy {o : Option Json} (h : oTruthy o = true) : o.isSome = true := by
  cases o <;> simp_all [oTruthy]

theorem outer_isSome_of_oIsNum_bind {o : Option Json} {f : Json → Option Json}
    (h : oIsNum (o.bind f) = true) : o.isSome = true := by
  cases o <;> simp_all [oIsNum]

theorem bind_idx_none_of_not_truthy {o : Option Json} (h : oTruthy o = false) :
    (o.bind (fun x => x.idx 0)) = none := by
  cases o with
  | none => rfl
  | some j => cases j <;> simp_all [oTruthy, Json.truthy, Json.idx]

/-! Evaluation lemmas for the option-level checks on constructor values. -/

theorem isArr_obj (f : List (String × Json)) : Json.isArr (.obj f) = false := rfl

theorem look_obj (f : List (String × Json)) (k : String) : Json.look (.obj f) k = f.lookup k := rfl

theorem idx_arr (l : List Json) (i : Nat) : Json.idx (.arr l) i = l.get? i := rfl

theorem oTruthy_some_arr (l : List Json) : oTruthy (some (.arr l)) = true := rfl

theorem oIsArr_some_arr (l : List Json) : oIsArr (some (.arr l)) = true := rfl

theorem oIsArr_some_num (n : Int) : oIsArr (some (.num n)) = false := rfl

theorem oIsNum_some_num (n : Int) : oIsNum (some (.num n)) = true := rfl

theorem oIsNum_some_arr (l : List Json) : oIsNum (some (.arr l)) = false := rfl

/-! Positive direction of the shape normalization, one lemma per spec shape. -/

theorem normalize_shapeA {j v : Json} (h : shapeA j = some v) :
    normalizeEmbedding j = some v := by
  cases j <;> simp [shapeA, numVec?] at h
  case arr l =>
    obtain ⟨⟨hne, hall⟩, rfl⟩ := h
    cases l with
    | nil => exact absurd rfl hne
    | cons x t =>
      have hx := hall x (List.mem_cons_self x t)
      cases x <;> simp [isNumJ] at hx
      simp [normalizeEmbedding, Json.isArr, Json.idx, oIsNum, isNumJ]

theorem normalize_shapeB {j v : Json} (h : shapeB j = some v) :
    normalizeEmbedding j = some v := by
  cases j <;> simp [shapeB] at h
  case arr l =>
    match l, h with
    | [row], h =>
      simp only [numVec?] at h
      cases row <;> simp at h
      case arr w =>
        obtain ⟨⟨hne, hall⟩, rfl⟩ := h
        cases w with
        | nil => exact absurd rfl hne
        | cons x t =>
          have hx := hall x (List.mem_cons_self x t)
          cases x <;> simp [isNumJ] at hx
          simp [normalizeEmbedding, Json.isArr, Json.idx, oIsNum, oIsArr, isNumJ]

theorem normalize_shapeC {j v : Json} (h : shapeC j = some v) :
    normalizeEmbedding j = some v := by
  simp only [shapeC, Option.bind_eq_some] at h
  obtain ⟨e, he, hv⟩ := h
  cases j <;> simp [Json.look] at he
  case obj fields =>
    cases e <;> simp [numVec?] at hv
    case arr w =>
      obtain ⟨-, rfl⟩ := hv
      simp [normalizeEmbedding, Json.isArr, Json.look, he, oTruthy, oIsArr, Json.truthy]

theorem normalize_shapeD {j v : Json} (h : shapeD j = some v)
    (hE : (oTruthy (j.look "embedding") && oIsArr (j.look "embedding")) = false) :
    normalizeEmbedding j = some v := by
  cases j <;> simp [shapeD, Json.look] at h
  case obj fields =>
    simp only [Json.look] at hE
    cases hle : List.lookup "embeddings" fields with
    | none => rw [hle] at h; simp at h
    | some e =>
      rw [hle] at h
      cases e <;> simp [numVec?] at h
      case arr w =>
        split at h
        case h_1 v2 heq =>
          split at heq
          case isTrue hc =>
            simp only [Option.some.injEq] at heq h
            subst heq
            subst h
            simp only [Bool.and_eq_true, List.all_eq_true] at hc
            obtain ⟨hne, hall⟩ := hc
            cases w with
            | nil => simp at hne
            | cons x t =>
              have hx := hall x (List.mem_cons_self x t)
              cases x <;> simp [isNumJ] at hx
              simp [normalizeEmbedding, isArr_obj, look_obj, idx_arr, hle, hE,
                oTruthy_some_arr, oIsArr_some_num, oIsNum_some_num]
          case isFalse => simp at heq
        case h_2 heq =>
          match w, h with
          | [row], h =>
            cases row <;> simp at h
            case arr w2 =>
              obtain ⟨⟨hne2, hall2⟩, rfl⟩ := h
              cases w2 with
              | nil => exact absurd rfl hne2
              | cons x t =>
                have hx := hall2 x (List.mem_cons_self x t)
                cases x <;> simp [isNumJ] at hx
                simp [normalizeEmbedding, isArr_obj, look_obj, idx_arr, hle, hE,
                  oTruthy_some_arr, oIsArr_some_arr, oIsNum_some_num]

theorem normalize_shapeE {j v : Json} (h : shapeE j = some v)
    (hE : (oTruthy (j.look "embedding") && oIsArr (j.look "embedding")) = false)
    (hN : (oIsArr ((j.look "embeddings").bind (fun x => x.idx 0)) &&
      oIsNum (((j.look "embeddings").bind (fun x => x.idx 0)).bind (fun x => x.idx 0))) = false)
    (hF : oIsNum ((j.look "embeddings").bind (fun x => x.idx 0)) = false) :
    normalizeEmbedding j = some v := by
  simp only [shapeE, Option.bind_eq_some] at h
  obtain ⟨d0, ⟨dd, hdd, hidx⟩, e, he, hv⟩ := h
  cases j <;> simp [Json.look] at hdd
  case obj fields =>
    simp only [Json.look] at hE hN hF
    cases dd <;> simp [Json.idx] at hidx
    case arr dl =>
      cases e <;> simp [numVec?] at hv
      case arr w =>
        obtain ⟨-, rfl⟩ := hv
        cases hT : oTruthy (List.lookup "embeddings" fields) <;>
          simp [normalizeEmbedding, dataCheck, isArr_obj, look_obj, idx_arr, hdd, hE, hN, hF, hT,
            oTruthy_some_arr, oIsArr_some_arr, hidx, he, List.get?_eq_getElem?]

theorem normalize_isSome (j : Json) : (normalizeEmbedding j).isSome = looseMatch j := by
  simp only [normalizeEmbedding, looseMatch, dataCheck]
  cases t1 : (j.isArr && oIsNum (j.idx 0)) with
  | true => simp [t1]
  | false =>
    cases t2 : (j.isArr && oIsArr (j.idx 0) && oIsNum ((j.idx 0).bind (fun x => x.idx 0))) with
    | true =>
      have hb : oIsArr (j.idx 0) = true := by
        simp only [Bool.and_eq_true] at t2
        exact t2.1.2
      simp [t1, t2, isSome_of_oIsArr hb]
    | false =>
      cases t3 : (oTruthy (j.look "embedding") && oIsArr (j.look "embedding")) with
      | true =>
        have hb : oIsArr (j.look "embedding") = true := by
          simp only [Bool.and_eq_true] at t3
          exact t3.2
        simp [t1, t2, t3, isSome_of_oIsArr hb]
      | false =>
        cases t5 : (oIsArr ((j.look "embeddings").bind (fun x => x.idx 0)) &&
            oIsNum (((j.look "embeddings").bind (fun x => x.idx 0)).bind (fun x => x.idx 0))) with
        | true =>
          have hb : oIsArr ((j.look "embeddings").bind (fun x => x.idx 0)) = true := by
            simp only [Bool.and_eq_true] at t5
            exact t5.1
          have hgate : oTruthy (j.look "embeddings") = true := by
            cases hg : oTruthy (j.look "embeddings")
            · rw [bind_idx_none_of_not_truthy hg] at hb
              simp [oIsArr] at hb
            · rfl
          simp [t1, t2, t3, t5, hgate, isSome_of_oIsArr hb]
        | false =>
          cases t6 : oIsNum ((j.look "embeddings").bind (fun x => x.idx 0)) with
          | true =>
            have hgate : oTruthy (j.look "embeddings") = true := by
              cases hg : oTruthy (j.look "embeddings")
              · rw [bind_idx_none_of_not_truthy hg] at t6
                simp [oIsNum] at t6
              · rfl
            have hb : (j.look "embeddings").isSome = true := outer_isSome_of_oIsNum_bind t6
            simp [t1, t2, t3, t5, t6, hgate, hb]
          | false =>
            cases t7 : (oTruthy (j.look "data") && oIsArr (j.look "data") &&
                oTruthy (((j.look "data").bind (fun x => x.idx 0)).bind (fun x => x.look "embedding"))) with
            | true =>
              have hb : oTruthy (((j.look "data").bind (fun x => x.idx 0)).bind
                  (fun x => x.look "embedding")) = true := by
                simp only [Bool.and_eq_true] at t7
                exact t7.2
              cases hg : oTruthy (j.look "embeddings") <;>
                simp [t1, t2, t3, t5, t6, t7, hg, isSome_of_oTruthy hb]
            | false =>
              cases hg : oTruthy (j.look "embeddings") <;>
                simp [t1, t2, t3, t5, t6, t7, hg]

/-- C5 counterexample: the response `[1, "x"]` matches none of the five spec
shapes (it is not an array of numbers, not nested, and carries no
`embedding`/`embeddings`/`data` field), yet the code does not raise the shape
error — it accepts the array whole, because the code only inspects the first
element (`typeof json[0] === "number"`). -/
theorem c5_counterexample :
    shapeA (.arr [.num 1, .str "x"]) = none ∧
    shapeB (.arr [.num 1, .str "x"]) = none ∧
    shapeC (.arr [.num 1, .str "x"]) = none ∧
    shapeD (.arr [.num 1, .str "x"]) = none ∧
    shapeE (.arr [.num 1, .str "x"]) = none ∧
    normalizeEmbedding (.arr [.num 1, .str "x"]) = some (.arr [.num 1, .str "x"]) :=
  ⟨rfl, rfl, rfl, rfl, rfl, rfl⟩

/-- C5 (amended): for each of the five recognized response shapes the
normalization returns the flat numeric vector, and the shapes take effect in
the order (a)-(e) — precedence between them being decided by the code's
structural first-element/field checks, so shapes (d) and (e) win only when no
earlier structural check fires; and a response is accepted (some vector
returned) exactly when one of the code's five structural checks passes, the
shape error being raised exactly on responses that fail all five. -/
theorem c5_shape_normalization :
    (∀ j v, shapeA j = some v → normalizeEmbedding j = some v) ∧
    (∀ j v, shapeB j = some v → normalizeEmbedding j = some v) ∧
    (∀ j v, shapeC j = some v → normalizeEmbedding j = some v) ∧
    (∀ j v, shapeD j = some v →
      (oTruthy (j.look "embedding") && oIsArr (j.look "embedding")) = false →
      normalizeEmbedding j = some v) ∧
    (∀ j v, shapeE j = some v →
      (oTruthy (j.look "embedding") && oIsArr (j.look "embedding")) = false →
      (oIsArr ((j.look "embeddings").bind (fun x => x.idx 0)) &&
        oIsNum (((j.look "embeddings").bind (fun x => x.idx 0)).bind (fun x => x.idx 0))) = false →
      oIsNum ((j.look "embeddings").bind (fun x => x.idx 0)) = false →
      normalizeEmbedding j = some v) ∧
    (∀ j, (normalizeEmbedding j).isSome = looseMatch j) := by
  refine ⟨?_, ?_, ?_, ?_, ?_, normalize_isSome⟩
  · exact fun j v h => normalize_shapeA h
  · exact fun j v h => normalize_shapeB h
  · exact fun j v h => normalize_shapeC h
  · exact fun j v h hE => normalize_shapeD h hE
  · exact fun j v h hE hN hF => normalize_shapeE h hE hN hF

/-- Witness for c5_shape_normalization: each of the five positive clauses
applied at a concrete response of its shape, hypotheses discharged by
evaluation. -/
theorem c5_shape_normalization_witness :
    (shapeA (.arr [.num 1, .num 2]) = some (.arr [.num 1, .num 2]) ∧
      normalizeEmbedding (.arr [.num 1, .num 2]) = some (.arr [.num 1, .num 2])) ∧
    (shapeB (.arr [.arr [.num 3]]) = some (.arr [.num 3]) ∧
      normalizeEmbedding (.arr [.arr [.num 3]]) = some (.arr [.num 3])) ∧
    (shapeC (.obj [("embedding", .arr [.num 4])]) = some (.arr [.num 4]) ∧
      normalizeEmbedding (.obj [("embedding", .arr [.num 4])]) = some (.arr [.num 4])) ∧
    (shapeD (.obj [("embeddings", .arr [.num 5])]) = some (.arr [.num 5]) ∧
      normalizeEmbedding (.obj [("embeddings", .arr [.num 5])]) = some (.arr [.num 5])) ∧
    (shapeE (.obj [("data", .arr [.obj [("embedding", .arr [.num 6])]])]) = some (.arr [.num 6]) ∧
      normalizeEmbedding (.obj [("data", .arr [.obj [("embedding", .arr [.num 6])]])]) =
        some (.arr [.num 6])) :=
  ⟨⟨rfl, c5_shape_normalization.1 _ _ rfl⟩,
   ⟨rfl, c5_shape_normalization.2.1 _ _ rfl⟩,
   ⟨rfl, c5_shape_normalization.2.2.1 _ _ rfl⟩,
   ⟨rfl, c5_shape_normalization.2.2.2.1 _ _ rfl rfl⟩,
   ⟨rfl, c5_shape_normalization.2.2.2.2.1 _ _ rfl rfl rfl rfl⟩⟩

/-- C6 (code behaviour at the failing input): when the primary endpoint
answers 404 on every attempt — a status that is neither 429 nor 5xx — the
code does not abandon the endpoint immediately: it sleeps 250·attempt ms and
re-fetches the same endpoint for all three attempts before moving to the
fallback endpoint, and it does the same for a shape error (HTTP 200 whose
body matches no recognized shape). The inline comment at
src/unnamed/part_000 line 122 ("For 404/422/etc we should try the next
endpoint") documents the intended — and claimed — behaviour, but the throw
is caught by the catch block of the same attempt loop, which retries. -/
theorem c6_nonretryable_retried_on_same_endpoint :
    getHfEmbedding (fun _ _ => ⟨404, none⟩) =
      (none, [.fetch 0 1, .sleep 250, .fetch 0 2, .sleep 500, .fetch 0 3,
              .fetch 1 1, .sleep 250, .fetch 1 2, .sleep 500, .fetch 1 3]) ∧
    getHfEmbedding (fun _ _ => ⟨200, some (.obj [("unexpected", .num 1)])⟩) =
      (none, [.fetch 0 1, .sleep 250, .fetch 0 2, .sleep 500, .fetch 0 3,
              .fetch 1 1, .sleep 250, .fetch 1 2, .sleep 500, .fetch 1 3]) :=
  ⟨rfl, rfl⟩

/-- C7: two consecutive 500 responses on the primary endpoint followed by a
200 with a recognized vector shape make embed succeed after exactly two
backoff delays of attempt × 300 ms, with every request going to the primary
endpoint — the fallback endpoint is never contacted. -/
theorem c7_two_500s_then_success (fetch : Nat → Nat → HResp) (j v : Json)
    (h1 : (fetch 0 1).status = 500) (h2 : (fetch 0 2).status = 500)
    (h3 : fetch 0 3 = ⟨200, some j⟩) (hn : normalizeEmbedding j = some v) :
    getHfEmbedding fetch =
      (some v, [.fetch 0 1, .sleep (300 * 1), .fetch 0 2, .sleep (300 * 2), .fetch 0 3]) := by
  have e1 : respOk (fetch 0 1) = false := by simp [respOk, h1]
  have e2 : respOk (fetch 0 2) = false := by simp [respOk, h2]
  simp [getHfEmbedding, endpointsLoop, attemptLoop, e1, e2, h1, h2, h3, hn, respOk]

/-- Witness for c7_two_500s_then_success at a concrete fetch script. -/
theorem c7_two_500s_then_success_witness :
    ((fun (e a : Nat) => if e = 0 && a = 3 then (⟨200, some (.arr [.num 1])⟩ : HResp)
        else ⟨500, none⟩) 0 1).status = 500 ∧
    normalizeEmbedding (.arr [.num 1]) = some (.arr [.num 1]) ∧
    getHfEmbedding (fun (e a : Nat) => if e = 0 && a = 3 then ⟨200, some (.arr [.num 1])⟩
        else ⟨500, none⟩) =
      (some (.arr [.num 1]),
        [.fetch 0 1, .sleep (300 * 1), .fetch 0 2, .sleep (300 * 2), .fetch 0 3]) :=
  ⟨rfl, rfl,
    c7_two_500s_then_success
      (fun e a => if e = 0 && a = 3 then ⟨200, some (.arr [.num 1])⟩ else ⟨500, none⟩)
      (.arr [.num 1]) (.arr [.num 1]) rfl rfl rfl rfl⟩

/-- C1 counterexample: a request whose search finds no context, with
generateIfNoContext set, succeeds through the generation branch (status 200,
trace shows only the generation engine ran, the answer is the generated
text), yet its payload carries no `source: "generation"` tag — route.ts line
245 returns `{answer, info, contextFound: false}` without a source field. -/
theorem c1_counterexample :
    (POST "q" true [] none (some "hello")).1.status = 200 ∧
    (POST "q" true [] none (some "hello")).2 = [EngCall.gen] ∧
    (POST "q" true [] none (some "hello")).1.answer = some (some "hello") ∧
    (POST "q" true [] none (some "hello")).1.source = none ∧
    ¬ (POST "q" true [] none (some "hello")).1.source = some "generation" := by
  refine ⟨rfl, rfl, rfl, rfl, ?_⟩
  decide

/-- C1 (amended): at most one answer source per request — a usable extractive
answer produces the `extractive-qa`-tagged response without ever invoking
generation; a generation success with non-empty context is tagged
`generation`; but the generation branch that runs with the
"(no context available)" placeholder (empty context, flag set) returns
`contextFound: false` with an informational note and no source tag at all. -/
theorem c1_single_source (q : String) (gic : Bool) (sections : List MatchedSection)
    (qaRes : Option QaAnswer) (genRes : Option String) (hq : ¬ jsTrim q = "") :
    (∀ r, qaRes = some r → ¬ buildContext sections = "" → ¬ jsTrim r.answer = "" →
      POST q gic sections qaRes genRes =
        ({ status := 200, answer := some (some (jsTrim r.answer)), info := none,
           contextFound := some true, source := some "extractive-qa",
           score := some r.score, error := none }, [EngCall.qa])) ∧
    (∀ g, genRes = some g → ¬ buildContext sections = "" →
      (∀ r, qaRes = some r → jsTrim r.answer = "") →
      (POST q gic sections qaRes genRes).1.source = some "generation" ∧
      (POST q gic sections qaRes genRes).1.status = 200 ∧
      (POST q gic sections qaRes genRes).2 = [EngCall.qa, EngCall.gen]) ∧
    (∀ g, genRes = some g → buildContext sections = "" → gic = true →
      (POST q gic sections qaRes genRes).1.source = none ∧
      (POST q gic sections qaRes genRes).1.contextFound = some false ∧
      (POST q gic sections qaRes genRes).1.status = 200 ∧
      (POST q gic sections qaRes genRes).2 = [EngCall.gen]) := by
  refine ⟨?_, ?_, ?_⟩
  · rintro r rfl hc hr
    have hra : ¬ r.answer = "" := fun h => hr (by rw [h]; rfl)
    simp [POST, hq, hc, hra, hr]
  · rintro g rfl hc hqa
    cases qaRes with
    | none => simp [POST, hq, hc]
    | some r =>
      have hr := hqa r rfl
      by_cases ha : r.answer = "" <;> simp [POST, hq, hc, hr, ha]
  · rintro g rfl hc rfl
    simp [POST, hq, hc]

/-- Witness for c1_single_source: the three clauses applied at concrete
requests. -/
theorem c1_single_source_witness :
    (¬ jsTrim "q" = "" ∧
      POST "q" false [⟨some "ctx", none, none⟩] (some ⟨"ans", some 9⟩) none =
        ({ status := 200, answer := some (some "ans"), info := none,
           contextFound := some true, source := some "extractive-qa",
           score := some (some 9), error := none }, [EngCall.qa])) ∧
    ((POST "q" true [⟨some "ctx", none, none⟩] none (some "g")).1.source = some "generation") ∧
    ((POST "q" true [] none (some "g")).1.source = none) := by
  refine ⟨⟨by decide, ?_⟩, ?_, ?_⟩
  · have h := (c1_single_source "q" false [⟨some "ctx", none, none⟩]
      (some ⟨"ans", some 9⟩) none (by decide)).1 ⟨"ans", some 9⟩ rfl (by decide) (by decide)
    simpa using h
  · exact ((c1_single_source "q" true [⟨some "ctx", none, none⟩] none (some "g")
      (by decide)).2.1 "g" rfl (by decide) (fun r hr => by cases hr)).1
  · exact ((c1_single_source "q" true [] none (some "g")
      (by decide)).2.2 "g" rfl (by decide) rfl).1

/-- C2: an extractive result whose answer trims to the empty string is
treated exactly like no answer — the handler proceeds to the generation
branch and returns the generation response (the generated text, tagged
`generation`), never the whitespace answer. -/
theorem c2_whitespace_answer_falls_through (q : String) (gic : Bool)
    (sections : List MatchedSection) (r : QaAnswer) (g : String)
    (hq : ¬ jsTrim q = "") (hc : ¬ buildContext sections = "")
    (hr : jsTrim r.answer = "") :
    POST q gic sections (some r) (some g) =
      ({ status := 200, answer := some (some (jsTrim g)), info := none,
         contextFound := some true, source := some "generation",
         score := none, error := none }, [EngCall.qa, EngCall.gen]) := by
  by_cases ha : r.answer = "" <;> simp [POST, hq, hc, hr, ha]

/-- Witness for c2_whitespace_answer_falls_through at the spec's own example
`{answer: "  "}`. -/
theorem c2_whitespace_answer_falls_through_witness :
    jsTrim "  " = "" ∧
    POST "q" false [⟨some "ctx", none, none⟩] (some ⟨"  ", none⟩) (some "gen text") =
      ({ status := 200, answer := some (some "gen text"), info := none,
         contextFound := some true, source := some "generation",
         score := none, error := none }, [EngCall.qa, EngCall.gen]) := by
  refine ⟨by decide, ?_⟩
  have h := c2_whitespace_answer_falls_through "q" false [⟨some "ctx", none, none⟩]
    ⟨"  ", none⟩ "gen text" (by decide) (by decide) (by decide)
  simpa using h

/-- C3: with generateIfNoContext false and an empty context from the search,
the handler returns `{answer: null, contextFound: false}` with the
informational message, invoking neither the extractive engine nor the
generation engine. -/
theorem c3_no_context_short_circuit (q : String) (sections : List MatchedSection)
    (qaRes : Option QaAnswer) (genRes : Option String)
    (hq : ¬ jsTrim q = "") (hc : buildContext sections = "") :
    POST q false sections qaRes genRes =
      ({ status := 200, answer := some none, info := some noContextMsg,
         contextFound := some false, source := none, score := none, error := none }, []) := by
  simp [POST, hq, hc]

/-- Witness for c3_no_context_short_circuit at an empty search result. -/
theorem c3_no_context_short_circuit_witness :
    buildContext [] = "" ∧
    POST "q" false [] (some ⟨"ans", none⟩) (some "g") =
      ({ status := 200, answer := some none, info := some noContextMsg,
         contextFound := some false, source := none, score := none, error := none }, []) :=
  ⟨rfl, c3_no_context_short_circuit "q" [] (some ⟨"ans", none⟩) (some "g") (by decide) rfl⟩

/-! Helper lemmas about the generation fallback chain. -/

theorem tryGen_none_iff (f : String → GenMode → GenOutcome) (models : List String) :
    (tryGenerateWithFallbacks f models).1 = none ↔
      ∀ m ∈ models, f m .modeA = .fail ∧ f m .modeB = .fail := by
  induction models with
  | nil => simp [tryGenerateWithFallbacks]
  | cons m rest ih =>
    cases hA : f m .modeA with
    | ok j => simp [tryGenerateWithFallbacks, hA]
    | fail =>
      cases hB : f m .modeB with
      | ok j => simp [tryGenerateWithFallbacks, hA, hB]
      | fail => simp [tryGenerateWithFallbacks, hA, hB, ih]

theorem tryGen_trace_prefix (f : String → GenMode → GenOutcome) (models : List String) :
    ∃ t, (tryGenerateWithFallbacks f models).2 ++ t = fullSchedule models := by
  induction models with
  | nil => exact ⟨[], rfl⟩
  | cons m rest ih =>
    cases hA : f m .modeA with
    | ok j => exact ⟨(m, .modeB) :: fullSchedule rest, by simp [tryGenerateWithFallbacks, hA, fullSchedule]⟩
    | fail =>
      cases hB : f m .modeB with
      | ok j => exact ⟨fullSchedule rest, by simp [tryGenerateWithFallbacks, hA, hB, fullSchedule]⟩
      | fail =>
        obtain ⟨t, ht⟩ := ih
        exact ⟨t, by simp [tryGenerateWithFallbacks, hA, hB, fullSchedule, ht]⟩

theorem tryGen_none_trace (f : String → GenMode → GenOutcome) (models : List String)
    (h : (tryGenerateWithFallbacks f models).1 = none) :
    (tryGenerateWithFallbacks f models).2 = fullSchedule models := by
  induction models with
  | nil => simp [tryGenerateWithFallbacks, fullSchedule]
  | cons m rest ih =>
    cases hA : f m .modeA with
    | ok j => rw [tryGenerateWithFallbacks, hA] at h; simp at h
    | fail =>
      cases hB : f m .modeB with
      | ok j => rw [tryGenerateWithFallbacks, hA, hB] at h; simp at h
      | fail =>
        rw [tryGenerateWithFallbacks, hA, hB] at h ⊢
        simp only at h
        simp [fullSchedule, ih h]

theorem tryGen_some_split (f : String → GenMode → GenOutcome) (models : List String)
    (s : String) (h : (tryGenerateWithFallbacks f models).1 = some s) :
    ∃ pre m mode j, (tryGenerateWithFallbacks f models).2 = pre ++ [(m, mode)] ∧
      (∀ p ∈ pre, f p.1 p.2 = GenOutcome.fail) ∧ f m mode = .ok j ∧ s = extractGenerated j := by
  induction models with
  | nil => simp [tryGenerateWithFallbacks] at h
  | cons m rest ih =>
    cases hA : f m .modeA with
    | ok j =>
      rw [tryGenerateWithFallbacks, hA] at h ⊢
      simp only [Option.some.injEq] at h
      exact ⟨[], m, .modeA, j, rfl, by simp, hA, h.symm⟩
    | fail =>
      cases hB : f m .modeB with
      | ok j =>
        rw [tryGenerateWithFallbacks, hA, hB] at h ⊢
        simp only [Option.some.injEq] at h
        refine ⟨[(m, .modeA)], m, .modeB, j, rfl, ?_, hB, h.symm⟩
        rintro p hp
        simp at hp
        rw [hp]
        exact hA
      | fail =>
        rw [tryGenerateWithFallbacks, hA, hB] at h ⊢
        simp only at h
        obtain ⟨pre, m', mode', j', h1, h2, h3, h4⟩ := ih h
        refine ⟨(m, .modeA) :: (m, .modeB) :: pre, m', mode', j', by simp [h1], ?_, h3, h4⟩
        rintro p hp
        simp only [List.mem_cons] at hp
        rcases hp with rfl | rfl | hp
        · exact hA
        · exact hB
        · exact h2 p hp

/-- C4: the generation fallback iterates the caller-supplied model list in
order, mode A before mode B for the same model; its attempt trace is always
an initial segment of the full (model, mode) schedule; it fails exactly when
every model fails both modes, in which case the whole schedule was tried;
any success terminates the chain at the first succeeding attempt (everything
before it failed, nothing after it runs); and when the chain fails, a handler
request that reached the generation stage gets the 502 generation-error
response, not a success. -/
theorem c4_generation_fallback_chain (f : String → GenMode → GenOutcome)
    (models : List String) (q : String) (gic : Bool)
    (sections : List MatchedSection) (qaRes : Option QaAnswer) :
    ((tryGenerateWithFallbacks f models).1 = none ↔
      ∀ m ∈ models, f m .modeA = .fail ∧ f m .modeB = .fail) ∧
    (∃ t, (tryGenerateWithFallbacks f models).2 ++ t = fullSchedule models) ∧
    ((tryGenerateWithFallbacks f models).1 = none →
      (tryGenerateWithFallbacks f models).2 = fullSchedule models) ∧
    (∀ s, (tryGenerateWithFallbacks f models).1 = some s →
      ∃ pre m mode j, (tryGenerateWithFallbacks f models).2 = pre ++ [(m, mode)] ∧
        (∀ p ∈ pre, f p.1 p.2 = GenOutcome.fail) ∧ f m mode = .ok j ∧ s = extractGenerated j) ∧
    (EngCall.gen ∈ (POST q gic sections qaRes none).2 →
      (POST q gic sections qaRes none).1 =
        { status := 502, answer := none, info := none, contextFound := none,
          source := none, score := none, error := some genFailMsg }) := by
  refine ⟨tryGen_none_iff f models, tryGen_trace_prefix f models,
    tryGen_none_trace f models, tryGen_some_split f models, ?_⟩
  intro hmem
  by_cases hq : jsTrim q = ""
  · simp [POST, hq] at hmem
  · by_cases hc : buildContext sections = ""
    · by_cases hg : gic = false
      · simp [POST, hq, hc, hg] at hmem
      · simp [POST, hq, hc, hg]
    · cases qaRes with
      | none => simp [POST, hq, hc]
      | some r =>
        by_cases ha : r.answer = ""
        · simp [POST, hq, hc, ha]
        · by_cases ht : jsTrim r.answer = ""
          · simp [POST, hq, hc, ha, ht]
          · simp [POST, hq, hc, ha, ht] at hmem

/-- Witness for c4_generation_fallback_chain: everything failing on a
two-model list tries the full schedule and yields the terminal error, and a
request that reached the generation stage surfaces it as the 502 response. -/
theorem c4_generation_fallback_chain_witness :
    (tryGenerateWithFallbacks (fun _ _ => GenOutcome.fail) ["a", "b"]).1 = none ∧
    (tryGenerateWithFallbacks (fun _ _ => GenOutcome.fail) ["a", "b"]).2 = fullSchedule ["a", "b"] ∧
    EngCall.gen ∈ (POST "q" false [⟨some "ctx", none, none⟩] none none).2 ∧
    (POST "q" false [⟨some "ctx", none, none⟩] none none).1 =
      { status := 502, answer := none, info := none, contextFound := none,
        source := none, score := none, error := some genFailMsg } := by
  have h := c4_generation_fallback_chain (fun _ _ => GenOutcome.fail) ["a", "b"] "q" false
    [⟨some "ctx", none, none⟩] none
  have hall : ∀ m ∈ ["a", "b"], (fun (_ : String) (_ : GenMode) => GenOutcome.fail) m .modeA = GenOutcome.fail ∧
      (fun (_ : String) (_ : GenMode) => GenOutcome.fail) m .modeB = GenOutcome.fail :=
    fun m _ => ⟨rfl, rfl⟩
  refine ⟨h.1.mpr hall, h.2.2.1 (h.1.mpr hall), by decide, h.2.2.2.2 (by decide)⟩

/-! Helper lemmas for context-order preservation. -/

theorem selectIdx_map {α β : Type} (g : α → β) (p : List Nat) (l : List α) :
    selectIdx p (l.map g) = (selectIdx p l).map g := by
  simp [selectIdx, List.map_filterMap, List.get?_eq_getElem?, List.getElem?_map]

theorem mem_selectIdx {α : Type} {x : α} {p : List Nat} {l : List α}
    (h : x ∈ selectIdx p l) : x ∈ l := by
  simp only [selectIdx, List.mem_filterMap] at h
  obtain ⟨i, -, hi⟩ := h
  exact List.get?_mem hi

theorem filterMap_eq_map_of_forall {α β : Type} (f : α → Option β) (g : α → β) :
    ∀ l : List α, (∀ x ∈ l, f x = some (g x)) → l.filterMap f = l.map g := by
  intro l
  induction l with
  | nil => intro _; rfl
  | cons x t ih =>
    intro h
    rw [List.filterMap_cons, h x (List.mem_cons_self x t), List.map_cons,
      ih (fun y hy => h y (List.mem_cons_of_mem x hy))]

/-- C8: the context handed to extraction and generation is the kept section
contents joined by a blank line in exactly the search-returned order; applying
any reordering to the search result reorders the content sequence identically
(the pipeline never consults `score` or `section_order`); when every returned
section has non-empty content, the kept context parts of a reordered result
are exactly the same reordering of the original context parts; and the
context depends on nothing but the content sequence. -/
theorem c8_context_order (sections sections' : List MatchedSection) (p : List Nat) :
    buildContext sections = String.intercalate "\n\n" ((sectionContents sections).filterMap keepTruthy) ∧
    sectionContents (selectIdx p sections) = selectIdx p (sectionContents sections) ∧
    ((∀ r ∈ sections, ∃ s, r.section_content = some s ∧ ¬ s = "") →
      contextArr (selectIdx p sections) = selectIdx p (contextArr sections)) ∧
    (sectionContents sections = sectionContents sections' →
      buildContext sections = buildContext sections') := by
  have hsc : sectionContents (selectIdx p sections) = selectIdx p (sectionContents sections) := by
    simp [sectionContents, selectIdx_map]
  refine ⟨rfl, hsc, ?_, ?_⟩
  · intro hall
    have hmap : ∀ o ∈ sectionContents sections, keepTruthy o = some (o.getD "") := by
      intro o ho
      simp only [sectionContents, List.mem_map] at ho
      obtain ⟨r, hr, rfl⟩ := ho
      obtain ⟨s, hs, hne⟩ := hall r hr
      simp [keepTruthy, hs, hne]
    calc contextArr (selectIdx p sections)
        = (selectIdx p (sectionContents sections)).filterMap keepTruthy := by
          rw [contextArr, hsc]
      _ = (selectIdx p (sectionContents sections)).map (fun o => o.getD "") :=
          filterMap_eq_map_of_forall _ _ _ (fun o ho => hmap o (mem_selectIdx ho))
      _ = selectIdx p ((sectionContents sections).map (fun o => o.getD "")) :=
          (selectIdx_map _ _ _).symm
      _ = selectIdx p (contextArr sections) := by
          rw [contextArr, filterMap_eq_map_of_forall _ _ _ hmap]
  · intro h
    rw [buildContext, buildContext, contextArr, contextArr, h]

/-- Witness for c8_context_order: a concrete two-section search result,
reversed by the index permutation `[1, 0]`. -/
theorem c8_context_order_witness :
    contextArr (selectIdx [1, 0] [⟨some "first", some 5, some 1⟩, ⟨some "second", some 3, some 2⟩]) =
      selectIdx [1, 0] (contextArr [⟨some "first", some 5, some 1⟩, ⟨some "second", some 3, some 2⟩]) ∧
    buildContext [⟨some "first", some 5, some 1⟩, ⟨some "second", some 3, some 2⟩] =
      buildContext [⟨some "first", some 9, none⟩, ⟨some "second", none, some 7⟩] := by
  have h := c8_context_order [⟨some "first", some 5, some 1⟩, ⟨some "second", some 3, some 2⟩]
    [⟨some "first", some 9, none⟩, ⟨some "second", none, some 7⟩] [1, 0]
  refine ⟨h.2.2.1 ?_, h.2.2.2 (by decide)⟩
  intro r hr
  simp only [List.mem_cons, List.not_mem_nil, or_false] at hr
  rcases hr with rfl | rfl
  · exact ⟨"first", rfl, by decide⟩
  · exact ⟨"second", rfl, by decide⟩

/-- Sections whose content is missing or empty all get dropped by the
truthiness filter. -/
theorem contextArr_nil_of_all_empty (sections : List MatchedSection)
    (hall : ∀ r ∈ sections, r.section_content = none ∨ r.section_content = some "") :
    contextArr sections = [] := by
  induction sections with
  | nil => rfl
  | cons r t ih =>
    have hr := hall r (List.mem_cons_self r t)
    have ht := ih (fun x hx => hall x (List.mem_cons_of_mem r hx))
    simp only [contextArr, sectionContents, List.map_cons, List.filterMap_cons] at ht ⊢
    rcases hr with hr | hr <;> simp [hr, keepTruthy, ht]

/-- C9: sections with empty or missing content are silently dropped before
concatenation; a search result consisting only of such sections behaves
exactly like an empty search result — the handler takes the no-context
branch, and with the generate flag off it reports contextFound: false with
no engine invoked. -/
theorem c9_empty_sections_like_no_context (q : String) (gic : Bool)
    (sections : List MatchedSection) (qaRes : Option QaAnswer) (genRes : Option String)
    (hall : ∀ r ∈ sections, r.section_content = none ∨ r.section_content = some "") :
    buildContext sections = "" ∧
    POST q gic sections qaRes genRes = POST q gic [] qaRes genRes ∧
    (gic = false → ¬ jsTrim q = "" →
      POST q gic sections qaRes genRes =
        ({ status := 200, answer := some none, info := some noContextMsg,
           contextFound := some false, source := none, score := none, error := none }, [])) := by
  have hb : buildContext sections = "" := by
    rw [buildContext, contextArr_nil_of_all_empty sections hall]
    rfl
  refine ⟨hb, ?_, ?_⟩
  · simp only [POST, hb, show buildContext ([] : List MatchedSection) = "" from rfl]
  · rintro rfl hq
    simp [POST, hq, hb]

/-- Witness for c9_empty_sections_like_no_context: two sections, one null
content and one empty-string content. -/
theorem c9_empty_sections_like_no_context_witness :
    buildContext [⟨none, some 7, some 1⟩, ⟨some "", some 5, some 2⟩] = "" ∧
    POST "q" false [⟨none, some 7, some 1⟩, ⟨some "", some 5, some 2⟩] (some ⟨"ans", none⟩) none =
      ({ status := 200, answer := some none, info := some noContextMsg,
         contextFound := some false, source := none, score := none, error := none }, []) := by
  have h := c9_empty_sections_like_no_context "q" false
    [⟨none, some 7, some 1⟩, ⟨some "", some 5, some 2⟩] (some ⟨"ans", none⟩) none ?_
  · exact ⟨h.1, h.2.2 rfl (by decide)⟩
  · intro r hr
    simp only [List.mem_cons, List.not_mem_nil, or_false] at hr
    rcases hr with rfl | rfl
    · exact Or.inl rfl
    · exact Or.inr rfl

/-- C10: an HTTP 2xx mode-A response of the array shape whose first element
has `generated_text: ""` counts as success: tryGenerateWithFallbacks returns
the empty string at once — mode B and the remaining models are never tried —
and a request that reaches generation with it returns 200 with the empty
answer tagged `generation`. -/
theorem c10_empty_generation_accepted (fetchGen : String → GenMode → GenOutcome)
    (m : String) (rest : List String) (x : Json) (xs : List Json)
    (q : String) (gic : Bool) (sections : List MatchedSection)
    (hA : fetchGen m .modeA = .ok (.arr (x :: xs)))
    (hx : x.look "generated_text" = some (.str ""))
    (hq : ¬ jsTrim q = "") (hc : ¬ buildContext sections = "") :
    tryGenerateWithFallbacks fetchGen (m :: rest) = (some "", [(m, GenMode.modeA)]) ∧
    POST q gic sections none (tryGenerateWithFallbacks fetchGen (m :: rest)).1 =
      ({ status := 200, answer := some (some ""), info := none,
         contextFound := some true, source := some "generation",
         score := none, error := none }, [EngCall.qa, EngCall.gen]) := by
  have hext : extractGenerated (.arr (x :: xs)) = "" := by
    unfold extractGenerated
    simp only [hx]
  have h1 : tryGenerateWithFallbacks fetchGen (m :: rest) = (some "", [(m, GenMode.modeA)]) := by
    rw [tryGenerateWithFallbacks, hA]
    simp only [hext]
  refine ⟨h1, ?_⟩
  rw [h1]
  simp [POST, hq, hc, show jsTrim "" = "" from rfl]

/-- Witness for c10_empty_generation_accepted at a concrete script. -/
theorem c10_empty_generation_accepted_witness :
    (fun (mo : String) (mode : GenMode) =>
        if mo = "distilgpt2" && mode = GenMode.modeA then
          GenOutcome.ok (.arr [.obj [("generated_text", .str "")]])
        else GenOutcome.fail) "distilgpt2" .modeA =
      GenOutcome.ok (.arr [.obj [("generated_text", .str "")]]) ∧
    tryGenerateWithFallbacks
      (fun (mo : String) (mode : GenMode) =>
        if mo = "distilgpt2" && mode = GenMode.modeA then
          GenOutcome.ok (.arr [.obj [("generated_text", .str "")]])
        else GenOutcome.fail) ["distilgpt2", "gpt2-medium"] = (some "", [("distilgpt2", GenMode.modeA)]) ∧
    POST "q" false [⟨some "ctx", none, none⟩] none (some "") =
      ({ status := 200, answer := some (some ""), info := none,
         contextFound := some true, source := some "generation",
         score := none, error := none }, [EngCall.qa, EngCall.gen]) := by
  have h := c10_empty_generation_accepted
    (fun (mo : String) (mode : GenMode) =>
      if mo = "distilgpt2" && mode = GenMode.modeA then
        GenOutcome.ok (.arr [.obj [("generated_text", .str "")]])
      else GenOutcome.fail)
    "distilgpt2" ["gpt2-medium"] (.obj [("generated_text", .str "")]) []
    "q" false [⟨some "ctx", none, none⟩] rfl rfl (by decide) (by decide)
  refine ⟨rfl, h.1, ?_⟩
  have h2 := h.2
  rw [h.1] at h2
  exact h2
